import Mathlib

/-!
Verification of the scoring and spaced-resurfacing core of src/app.py
(clinical judgment trainer, variant v5).

Modelling conventions for the shallow embedding:

* Point values, scores and interval indices are exact integers in the
  Python code; they are modelled as Int / Nat.
* Wall-clock timestamps (time.time()) are only ever added to and
  compared; they are modelled as Int seconds.
* int(confidence_pct) can raise ValueError; the raw confidence input is
  modelled as Option Int, where none stands for a value that does not
  parse as an integer (the except branch of calibration_points).
* The SQLite spaced table is modelled as a List ReviewRecord; the SQL
  SELECT / INSERT / UPDATE statements are modelled as list operations,
  with ORDER BY modelled as a stable sort; the try/except wrappers that
  swallow persistence errors are modelled by an explicit failure flag.
* Scheduler side effects of the scoring stages do not feed back into the
  score, so the scoring model tracks only the score-relevant state
  (score, wrong_mcq_count, safety_cap flag), exactly as the Python
  session dict does.
-/

-- ===================== Scoring / XP policy (XP_POLICY dict, src/app.py lines 129-149) =====================

structure XPPolicy where
  priority_correct : Int
  investigations_correct : Int
  nbs_correct : Int
  history_rank_points1 : Int
  history_rank_points2 : Int
  history_rank_points3 : Int
  history_max : Int
  history_dup_malus : Int
  exam_participation : Int
  ecg_interpretation_full : Int
  orders_points_required_each : Int
  orders_malus_contra : Int
  labs_reasoning_full : Int
  calibration_max_per_decision : Int
  hint_costs : List Int
  speed_bonus_fast : Int
  speed_bonus_ok : Int
  safety_wrong_cap : Int
  one_wrong_cap : Int
  two_wrong_cap : Int
  dangerous_choice_malus : Int

def XP_POLICY : XPPolicy :=
  { priority_correct := 35
    investigations_correct := 20
    nbs_correct := 30
    history_rank_points1 := 6
    history_rank_points2 := 4
    history_rank_points3 := 2
    history_max := 12
    history_dup_malus := 4
    exam_participation := 6
    ecg_interpretation_full := 12
    orders_points_required_each := 5
    orders_malus_contra := 8
    labs_reasoning_full := 12
    calibration_max_per_decision := 10
    hint_costs := [2, 3, 5]
    speed_bonus_fast := 5
    speed_bonus_ok := 3
    safety_wrong_cap := 70
    one_wrong_cap := 95
    two_wrong_cap := 88
    dangerous_choice_malus := 15 }

-- ===================== calibration_points (src/app.py lines 151-156) =====================

/-- Clamping step of calibration_points: c = max(0, min(100, int(confidence_pct)))
with the except branch c = 50 when int() raises; none models an unparsable input. -/
def confClamp (confidence_pct : Option Int) : Nat :=
  match confidence_pct with
  | some v => (max 0 (min 100 v)).toNat
  | none => 50

/-- calibration_points(correct, confidence_pct): c // 10 if correct else (100 - c) // 10.
Both Python operands are nonnegative, so // agrees with Nat division. -/
def calibration_points (correct : Bool) (confidence_pct : Option Int) : Nat :=
  let c := confClamp confidence_pct
  if correct then c / 10 else (100 - c) / 10

-- ===================== Spaced resurfacing scheduler (src/app.py lines 56-99) =====================

def INTERVALS_DAYS : List Nat := [1, 3, 7, 14, 30]

/-- One row of the spaced table (session_id, tag, interval_idx, next_due_ts,
last_result, created_ts, updated_ts). -/
structure ReviewRecord where
  session_id : String
  tag : String
  interval_idx : Nat
  next_due_ts : Int
  last_result : Bool
  created_ts : Int
  updated_ts : Int
  deriving DecidableEq

/-- INTERVALS_DAYS[idx]; idx is always in range for records produced by the
upsert (the default is never reached on reachable states). -/
def scheduleDays (idx : Nat) : Nat := INTERVALS_DAYS.getD idx 0

/-- _days_from_now(d) = _now_ts() + d*86400, with the call time passed explicitly. -/
def days_from_now (now : Int) (d : Nat) : Int := now + (d : Int) * 86400

/-- Row inserted by upsert_spaced_tag when no record exists:
idx = 0 if not success else 1, next_due = _days_from_now(INTERVALS_DAYS[idx]). -/
def fresh_record (sid tag : String) (success : Bool) (now : Int) : ReviewRecord :=
  let idx := if success then 1 else 0
  { session_id := sid
    tag := tag
    interval_idx := idx
    next_due_ts := days_from_now now (scheduleDays idx)
    last_result := success
    created_ts := now
    updated_ts := now }

/-- UPDATE branch of upsert_spaced_tag:
idx = min(idx+1, len(INTERVALS_DAYS)-1) if success else max(0, idx-1)
(Nat subtraction is exactly the max with 0). -/
def step_record (r : ReviewRecord) (success : Bool) (now : Int) : ReviewRecord :=
  let idx := if success then min (r.interval_idx + 1) (INTERVALS_DAYS.length - 1)
             else r.interval_idx - 1
  { r with
    interval_idx := idx
    next_due_ts := days_from_now now (scheduleDays idx)
    last_result := success
    updated_ts := now }

/-- WHERE session_id=? AND tag=? filter of the SELECT inside upsert_spaced_tag. -/
def spacedKeyMatch (sid tag : String) (r : ReviewRecord) : Bool :=
  r.session_id == sid && r.tag == tag

/-- UPDATE ... WHERE id=?: replaces the row the SELECT found (the first match). -/
def replaceFirst (p : ReviewRecord → Bool) (newr : ReviewRecord) :
    List ReviewRecord → List ReviewRecord
  | [] => []
  | r :: rest => if p r then newr :: rest else r :: replaceFirst p newr rest

/-- upsert_spaced_tag(tag, success) on an explicit store, src/app.py lines 58-77. -/
def upsert_spaced_tag (db : List ReviewRecord) (sid tag : String) (success : Bool)
    (now : Int) : List ReviewRecord :=
  match db.find? (spacedKeyMatch sid tag) with
  | none => db ++ [fresh_record sid tag success now]
  | some r => replaceFirst (spacedKeyMatch sid tag) (step_record r success now) db

/-- WHERE session_id=? AND next_due_ts<=? filter of due_spaced_tags and
queued_spaced_count. -/
def dueFilter (sid : String) (now : Int) (r : ReviewRecord) : Bool :=
  r.session_id == sid && decide (r.next_due_ts ≤ now)

/-- ORDER BY next_due_ts ASC comparison. -/
def dueLE (a b : ReviewRecord) : Prop := a.next_due_ts ≤ b.next_due_ts

instance : DecidableRel dueLE := fun a b => inferInstanceAs (Decidable (a.next_due_ts ≤ b.next_due_ts))

instance : IsTotal ReviewRecord dueLE := ⟨fun a b => le_total a.next_due_ts b.next_due_ts⟩

instance : IsTrans ReviewRecord dueLE := ⟨fun _ _ _ h h2 => le_trans h h2⟩

/-- Rows selected by due_spaced_tags before LIMIT: filtered by session and due
timestamp, ordered by next_due_ts ascending (modelled as a stable sort). -/
def due_records (db : List ReviewRecord) (sid : String) (now : Int) : List ReviewRecord :=
  List.insertionSort dueLE (db.filter (dueFilter sid now))

/-- due_spaced_tags(limit), src/app.py lines 79-90: list of tags of due rows,
most overdue first, truncated to the limit. -/
def due_spaced_tags (db : List ReviewRecord) (sid : String) (now : Int) (limit : Nat) :
    List String :=
  ((due_records db sid now).take limit).map (fun r => r.tag)

/-- queued_spaced_count(), src/app.py lines 92-99: COUNT(*) with the same WHERE. -/
def queued_spaced_count (db : List ReviewRecord) (sid : String) (now : Int) : Nat :=
  (db.filter (dueFilter sid now)).length

/-- try/except wrapper of upsert_spaced_tag: on a persistence error (fail = true)
the exception is swallowed and the store is left unchanged. -/
def upsert_spaced_tag_safe (fail : Bool) (db : List ReviewRecord) (sid tag : String)
    (success : Bool) (now : Int) : List ReviewRecord :=
  if fail then db else upsert_spaced_tag db sid tag success now

/-- try/except wrapper of due_spaced_tags: on a persistence error it returns []. -/
def due_spaced_tags_safe (fail : Bool) (db : List ReviewRecord) (sid : String)
    (now : Int) (limit : Nat) : List String :=
  if fail then [] else due_spaced_tags db sid now limit

/-- try/except wrapper of queued_spaced_count: on a persistence error it returns 0. -/
def queued_spaced_count_safe (fail : Bool) (db : List ReviewRecord) (sid : String)
    (now : Int) : Nat :=
  if fail then 0 else queued_spaced_count db sid now

/-- Interval-index dynamics of upsert_spaced_tag for one (session, tag) key:
none models a missing record. -/
def upsert_idx (cur : Option Nat) (success : Bool) : Nat :=
  match cur with
  | none => if success then 1 else 0
  | some idx => if success then min (idx + 1) (INTERVALS_DAYS.length - 1) else idx - 1

/-- Interval index after a sequence of recordResult signals for a fixed key. -/
def run_signals (cur : Option Nat) (sigs : List Bool) : Option Nat :=
  sigs.foldl (fun c s => some (upsert_idx c s)) cur

-- ===================== Case content relevant to scoring (CASE_CARDIO, src/app.py lines 160-329) =====================

/-- Single-choice option: id, correct, safety_critical, review_tag. -/
structure MCOption where
  id : String
  correct : Bool
  safety_critical : Bool
  review_tag : Option String

/-- Checklist entry: id, required, contra. -/
structure ChecklistItem where
  id : String
  required : Bool
  contra : Bool

/-- labs_review option: id, correct, contra, tag. -/
structure LabsOption where
  id : String
  correct : Bool
  contra : Bool
  tag : Option String

def priority_options : List MCOption :=
  [⟨"A", false, false, none⟩,
   ⟨"B", true, true, some "ACS_ECG_10MIN"⟩,
   ⟨"C", false, false, none⟩,
   ⟨"D", false, false, none⟩]

def priority_dangerous : List String := ["C"]

def history_items : List String :=
  ["Red flags: diaphoresis/SOB/syncope", "Character: radiation/exertion/relief",
   "Risk: CAD risks/family hx"]

def history_desired_order : List String :=
  ["Red flags: diaphoresis/SOB/syncope", "Character: radiation/exertion/relief",
   "Risk: CAD risks/family hx"]

def ecg_checklist : List ChecklistItem :=
  [⟨"rate", true, false⟩,
   ⟨"stdep", true, false⟩,
   ⟨"stemi", false, true⟩,
   ⟨"lbbb", false, true⟩,
   ⟨"normal", false, true⟩]

def initial_orders_list : List ChecklistItem :=
  [⟨"asp", true, false⟩,
   ⟨"nitr", true, false⟩,
   ⟨"ox", false, false⟩,
   ⟨"cxr", true, false⟩,
   ⟨"morph", false, false⟩,
   ⟨"throm", false, true⟩,
   ⟨"dsch", false, true⟩]

def labs_options : List LabsOption :=
  [⟨"trend", true, false, some "TROPONIN_SERIAL"⟩,
   ⟨"ddimer", false, true, none⟩,
   ⟨"renal", true, false, some "RENAL_OK"⟩,
   ⟨"glucose", false, true, none⟩]

def imaging_checklist : List ChecklistItem :=
  [⟨"no_wide", true, false⟩,
   ⟨"mild_ce", false, false⟩,
   ⟨"gross_norm", false, false⟩,
   ⟨"big_pnx", false, true⟩]

def investigations_options : List MCOption :=
  [⟨"A", true, false, some "ACS_TROPONIN_SERIAL"⟩,
   ⟨"B", false, false, none⟩,
   ⟨"C", false, false, none⟩,
   ⟨"D", false, false, none⟩]

def investigations_dangerous : List String := []

def nbs_options : List MCOption :=
  [⟨"A", false, false, none⟩,
   ⟨"B", true, false, some "ACS_PATHWAY_ANTIPLATELET"⟩,
   ⟨"C", false, false, none⟩,
   ⟨"D", false, false, none⟩]

def nbs_dangerous : List String := ["C"]

def handoff_items : List ChecklistItem :=
  [⟨"time", true, false⟩,
   ⟨"red", true, false⟩,
   ⟨"tx", true, false⟩,
   ⟨"risk", true, false⟩,
   ⟨"dsch", false, true⟩]

-- ===================== Case scoring engine (stage() POST handler, src/app.py lines 720-939) =====================

/-- The score-relevant part of the session case state:
state["score"], state["wrong_mcq_count"], state["decisions"]["safety_cap"]. -/
structure CaseState where
  score : Int
  wrong_mcq_count : Nat
  safety_cap : Bool

/-- State created by start_case: score 0, no wrong MCQs, no safety cap flag. -/
def init_case_state : CaseState := ⟨0, 0, false⟩

/-- next((o["id"] for o in options if o.get("correct")), None). -/
def find_correct_id (opts : List MCOption) : Option String :=
  (opts.find? (fun o => o.correct)).map (fun o => o.id)

/-- priority stage handler (src/app.py lines 747-773); the scheduler and
vitals side effects do not change the score. -/
def priority_process (st : CaseState) (choice : String) (conf : Int) : CaseState :=
  let correct := find_correct_id priority_options == some choice
  let st1 :=
    if correct then
      { st with score := st.score + XP_POLICY.priority_correct }
    else
      let st2 := { st with safety_cap := true, wrong_mcq_count := st.wrong_mcq_count + 1 }
      if priority_dangerous.contains choice then
        { st2 with score := st2.score - XP_POLICY.dangerous_choice_malus }
      else st2
  { st1 with score := st1.score + (calibration_points correct (some conf) : Int) }

/-- Positional points of the history ranking stage (src/app.py lines 778-781). -/
def history_base_pts (r1 r2 r3 : Option String) : Int :=
  (if r1 == history_desired_order.get? 0 then XP_POLICY.history_rank_points1 else 0) +
  (if r2 == history_desired_order.get? 1 then XP_POLICY.history_rank_points2 else 0) +
  (if r3 == history_desired_order.get? 2 then XP_POLICY.history_rank_points3 else 0)

/-- seen = [c for c in chosen if c]: blank (absent or empty, both falsy) ranks are
dropped; a blank select is modelled as none. -/
def history_seen (r1 r2 r3 : Option String) : List String :=
  [r1, r2, r3].filterMap id

/-- history_rank stage handler (src/app.py lines 775-788): positional points,
duplicate malus on the non-blank entries, clamp into [0, history_max]. -/
def history_rank_process (st : CaseState) (r1 r2 r3 : Option String) : CaseState :=
  let pts := history_base_pts r1 r2 r3
  let pts := if (history_seen r1 r2 r3).Nodup then pts else pts - XP_POLICY.history_dup_malus
  let pts := max 0 (min XP_POLICY.history_max pts)
  { st with score := st.score + pts }

def checklist_required (items : List ChecklistItem) : List String :=
  (items.filter (fun i => i.required)).map (fun i => i.id)

def checklist_contra (items : List ChecklistItem) : List String :=
  (items.filter (fun i => i.contra)).map (fun i => i.id)

/-- got_reqs = all(r in ticks for r in reqs) at the ecg_read stage. -/
def ecg_got_reqs (ticks : List String) : Bool :=
  (checklist_required ecg_checklist).all (fun r => ticks.contains r)

/-- picked_contra = any(c in ticks for c in contras) at the ecg_read stage. -/
def ecg_picked_contra (ticks : List String) : Bool :=
  (checklist_contra ecg_checklist).any (fun c => ticks.contains c)

/-- ecg_read stage handler (src/app.py lines 790-803): full value iff every
required item is ticked, -5 if any contraindicated item is ticked, floor at 0. -/
def ecg_process (st : CaseState) (ticks : List String) : CaseState :=
  let pts : Int := (if ecg_got_reqs ticks then XP_POLICY.ecg_interpretation_full else 0) -
    (if ecg_picked_contra ticks then 5 else 0)
  let pts := max 0 pts
  { st with score := st.score + pts }

/-- initial_orders stage handler (src/app.py lines 805-823): +5 per required
order ticked, -8 per contraindicated order ticked, floor at 0. -/
def initial_orders_process (st : CaseState) (ticks : List String) : CaseState :=
  let pts : Int := (checklist_required initial_orders_list).foldl
    (fun acc r => if ticks.contains r then acc + XP_POLICY.orders_points_required_each else acc) 0
  let pts := (checklist_contra initial_orders_list).foldl
    (fun acc c => if ticks.contains c then acc - XP_POLICY.orders_malus_contra else acc) pts
  let pts := max 0 pts
  { st with score := st.score + pts }

/-- labs_review stage handler (src/app.py lines 825-839): full value iff every
correct option is ticked, -5 if any contra option is ticked, floor at 0. -/
def labs_review_process (st : CaseState) (ticks : List String) : CaseState :=
  let correct_ids := (labs_options.filter (fun o => o.correct)).map (fun o => o.id)
  let contra_ids := (labs_options.filter (fun o => o.contra)).map (fun o => o.id)
  let pts : Int := if correct_ids.all (fun c => ticks.contains c) then XP_POLICY.labs_reasoning_full else 0
  let pts := if contra_ids.any (fun c => ticks.contains c) then pts - 5 else pts
  let pts := max 0 pts
  { st with score := st.score + pts }

/-- imaging_panel stage handler (src/app.py lines 841-853): 6 iff every required
item is ticked, -4 if any contra item is ticked, floor at 0. -/
def imaging_panel_process (st : CaseState) (ticks : List String) : CaseState :=
  let got := (checklist_required imaging_checklist).all (fun r => ticks.contains r)
  let pts : Int := if got then 6 else 0
  let pts := if (checklist_contra imaging_checklist).any (fun c => ticks.contains c) then pts - 4 else pts
  let pts := max 0 pts
  { st with score := st.score + pts }

/-- investigations stage handler (src/app.py lines 855-873). -/
def investigations_process (st : CaseState) (choice : String) (conf : Int) : CaseState :=
  let correct := find_correct_id investigations_options == some choice
  let st1 :=
    if correct then
      { st with score := st.score + XP_POLICY.investigations_correct }
    else
      let st2 := { st with wrong_mcq_count := st.wrong_mcq_count + 1 }
      if investigations_dangerous.contains choice then
        { st2 with score := st2.score - XP_POLICY.dangerous_choice_malus }
      else st2
  { st1 with score := st1.score + (calibration_points correct (some conf) : Int) }

/-- nbs stage handler (src/app.py lines 875-893). -/
def nbs_process (st : CaseState) (choice : String) (conf : Int) : CaseState :=
  let correct := find_correct_id nbs_options == some choice
  let st1 :=
    if correct then
      { st with score := st.score + XP_POLICY.nbs_correct }
    else
      let st2 := { st with wrong_mcq_count := st.wrong_mcq_count + 1 }
      if nbs_dangerous.contains choice then
        { st2 with score := st2.score - XP_POLICY.dangerous_choice_malus }
      else st2
  { st1 with score := st1.score + (calibration_points correct (some conf) : Int) }

/-- good = all required ticked at the handoff stage. -/
def handoff_good (ticks : List String) : Bool :=
  (checklist_required handoff_items).all (fun r => ticks.contains r)

/-- bad = any contra ticked at the handoff stage. -/
def handoff_bad (ticks : List String) : Bool :=
  (checklist_contra handoff_items).any (fun c => ticks.contains c)

/-- handoff stage handler (src/app.py lines 895-909): 6 iff every required item
is ticked, -4 if any contra item is ticked, floor at 0. -/
def handoff_process (st : CaseState) (ticks : List String) : CaseState :=
  let pts : Int := (if handoff_good ticks then 6 else 0) - (if handoff_bad ticks then 4 else 0)
  let pts := max 0 pts
  { st with score := st.score + pts }

/-- One submission per scoring stage of the fixed flow (presenting and
focused_exam do not score), plus the elapsed seconds at case end. -/
structure RunInputs where
  priority_choice : String
  priority_conf : Int
  history_r1 : Option String
  history_r2 : Option String
  history_r3 : Option String
  ecg_ticks : List String
  orders_ticks : List String
  labs_ticks : List String
  imaging_ticks : List String
  investigations_choice : String
  investigations_conf : Int
  nbs_choice : String
  nbs_conf : Int
  handoff_ticks : List String
  elapsed_seconds : Int

/-- The stage handlers applied once each, in the order of CASE_CARDIO["flow"]. -/
def run_stages (inp : RunInputs) : CaseState :=
  let st := init_case_state
  let st := priority_process st inp.priority_choice inp.priority_conf
  let st := history_rank_process st inp.history_r1 inp.history_r2 inp.history_r3
  let st := ecg_process st inp.ecg_ticks
  let st := initial_orders_process st inp.orders_ticks
  let st := labs_review_process st inp.labs_ticks
  let st := imaging_panel_process st inp.imaging_ticks
  let st := investigations_process st inp.investigations_choice inp.investigations_conf
  let st := nbs_process st inp.nbs_choice inp.nbs_conf
  let st := handoff_process st inp.handoff_ticks
  st

/-- Speed bonus at case end (src/app.py lines 918-923). -/
def speed_bonus (elapsed : Int) : Int :=
  if elapsed ≤ 8 * 60 then XP_POLICY.speed_bonus_fast
  else if elapsed ≤ 12 * 60 then XP_POLICY.speed_bonus_ok
  else 0

/-- Case state right before the caps: all stages scored plus the speed bonus. -/
def pre_cap_state (inp : RunInputs) : CaseState :=
  let st := run_stages inp
  { st with score := st.score + speed_bonus inp.elapsed_seconds }

/-- End-of-case caps (src/app.py lines 925-936): safety cap first, else the
two-wrong cap, else the one-wrong cap; each is a min with the running score. -/
def apply_caps (st : CaseState) : Int :=
  if st.safety_cap then min st.score XP_POLICY.safety_wrong_cap
  else if st.wrong_mcq_count ≥ 2 then min st.score XP_POLICY.two_wrong_cap
  else if st.wrong_mcq_count == 1 then min st.score XP_POLICY.one_wrong_cap
  else st.score

/-- Final score shown by the feedback view (src/app.py line 955):
max(0, min(100, int(round(score)))); the running score is an exact integer,
so the rounding is the identity. -/
def final_score (inp : RunInputs) : Int :=
  max 0 (min 100 (apply_caps (pre_cap_state inp)))

/-- Concrete run for the C2 witness: every stage other than priority is
answered perfectly and the case is fast, yet the priority stage is missed. -/
def wrongPriorityRun : RunInputs :=
  { priority_choice := "A"
    priority_conf := 30
    history_r1 := some "Red flags: diaphoresis/SOB/syncope"
    history_r2 := some "Character: radiation/exertion/relief"
    history_r3 := some "Risk: CAD risks/family hx"
    ecg_ticks := ["rate", "stdep"]
    orders_ticks := ["asp", "nitr", "cxr"]
    labs_ticks := ["trend", "renal"]
    imaging_ticks := ["no_wide"]
    investigations_choice := "A"
    investigations_conf := 80
    nbs_choice := "B"
    nbs_conf := 80
    handoff_ticks := ["time", "red", "tx", "risk"]
    elapsed_seconds := 300 }

/-- Ranking-stage scoring exactly as claim C7 words it, for comparison with
the code: the fixed penalty is subtracted whenever the submitted ranks contain
duplicates or blanks, and the total is clamped into [0, history_max]. -/
def history_rank_points_claimed (r1 r2 r3 : Option String) : Int :=
  let base := history_base_pts r1 r2 r3
  let has_blank := r1 == none || r2 == none || r3 == none
  let has_dup := decide (¬ [r1, r2, r3].Nodup)
  let pts := if has_blank || has_dup then base - XP_POLICY.history_dup_malus else base
  max 0 (min XP_POLICY.history_max pts)

-- ===================== Helper lemmas =====================

lemma confClamp_le (o : Option Int) : confClamp o ≤ 100 := by
  cases o with
  | none => simp [confClamp]
  | some v =>
    simp only [confClamp]
    omega

lemma calibration_le (b : Bool) (o : Option Int) : calibration_points b o ≤ 10 := by
  unfold calibration_points
  have h := confClamp_le o
  cases b <;> simp <;> omega

lemma run_signals_cons (cur : Option Nat) (s : Bool) (sigs : List Bool) :
    run_signals cur (s :: sigs) = run_signals (some (upsert_idx cur s)) sigs := rfl

lemma upsert_idx_le (cur : Option Nat) (s : Bool) (h : ∀ j, cur = some j → j ≤ 4) :
    upsert_idx cur s ≤ 4 := by
  cases cur with
  | none => cases s <;> simp [upsert_idx]
  | some i =>
    have hi : i ≤ 4 := h i rfl
    cases s <;> (simp [upsert_idx, INTERVALS_DAYS]; try omega)

lemma run_signals_le (sigs : List Bool) :
    ∀ cur : Option Nat, (∀ j, cur = some j → j ≤ 4) →
      ∀ j, run_signals cur sigs = some j → j ≤ 4 := by
  induction sigs with
  | nil => intro cur h j hj; exact h j hj
  | cons s rest ih =>
    intro cur h j hj
    rw [run_signals_cons] at hj
    refine ih (some (upsert_idx cur s)) ?_ j hj
    intro k hk
    cases hk
    exact upsert_idx_le cur s h

lemma run_signals_replicate_true (N : Nat) :
    ∀ i : Nat, i ≤ 4 →
      run_signals (some i) (List.replicate N true) = some (min (i + N) 4) := by
  induction N with
  | zero =>
    intro i hi
    simp [run_signals]
    omega
  | succ N ih =>
    intro i hi
    rw [List.replicate_succ, run_signals_cons]
    have hstep : upsert_idx (some i) true = min (i + 1) 4 := by
      simp [upsert_idx, INTERVALS_DAYS]
    rw [hstep]
    have h2 : min (i + 1) 4 ≤ 4 := by omega
    rw [ih (min (i + 1) 4) h2]
    congr 1
    omega

lemma run_signals_replicate_false (N : Nat) :
    ∀ i : Nat, run_signals (some i) (List.replicate N false) = some (i - N) := by
  induction N with
  | zero => intro i; simp [run_signals]
  | succ N ih =>
    intro i
    rw [List.replicate_succ, run_signals_cons]
    have hstep : upsert_idx (some i) false = i - 1 := by
      simp [upsert_idx]
    rw [hstep, ih (i - 1)]
    congr 1
    omega

-- ===================== C3 =====================

/-- C3: for every correctness flag and every integer confidence value the
calibration bonus is floor(c/10) when correct and floor((100-c)/10) when
incorrect for c in [0,100], it never exceeds 10 (and is a Nat, hence
nonnegative), and out-of-range confidence values are clamped rather than
rejected: the bonus at any confidence equals the bonus at its clamp. -/
theorem calibration_spec (b : Bool) (c : Int) :
    (0 ≤ c → c ≤ 100 →
      calibration_points b (some c) = if b then c.toNat / 10 else (100 - c.toNat) / 10) ∧
    calibration_points b (some c) ≤ 10 ∧
    calibration_points b (some c) = calibration_points b (some (max 0 (min 100 c))) := by
  refine ⟨?_, calibration_le b (some c), ?_⟩
  · intro h0 h100
    have hc : confClamp (some c) = c.toNat := by
      simp only [confClamp]
      omega
    unfold calibration_points
    rw [hc]
  · have hc : confClamp (some (max 0 (min 100 c))) = confClamp (some c) := by
      simp only [confClamp]
      omega
    unfold calibration_points
    rw [hc]

/-- Witness for C3 at concrete confidences 87 (in range) and 137 (clamped to 100). -/
theorem calibration_spec_witness :
    calibration_points true (some 87) = 8 ∧
    calibration_points false (some 137) = calibration_points false (some 100) := by
  constructor
  · have h := (calibration_spec true 87).1 (by decide) (by decide)
    simpa using h
  · have h := (calibration_spec false 137).2.2
    simpa using h

-- ===================== C10 =====================

/-- C10: calibration_points is total over arbitrary raw confidence input: an
unparsable confidence is treated as 50, giving a bonus of 5 for either
correctness value, and the result is at most 10 (a Nat, hence in [0,10])
for every possible input. -/
theorem calibration_total (b : Bool) :
    calibration_points b none = 5 ∧ ∀ o : Option Int, calibration_points b o ≤ 10 := by
  constructor
  · cases b <;> decide
  · intro o
    exact calibration_le b o

-- ===================== C4 =====================

/-- C4: for one (session, tag) key, any sequence of recordResult signals keeps
the interval index a valid position into [1,3,7,14,30] (at most 4); N
consecutive successes from a fresh key reach min(N, 4); N consecutive failures
from index i reach i - N in Nat, which is exactly max(i - N, 0). -/
theorem interval_idx_spec :
    (∀ (sigs : List Bool) (cur : Option Nat), (∀ j, cur = some j → j ≤ 4) →
      ∀ j, run_signals cur sigs = some j → j ≤ 4) ∧
    (∀ N : Nat, 1 ≤ N → run_signals none (List.replicate N true) = some (min N 4)) ∧
    (∀ i N : Nat, run_signals (some i) (List.replicate N false) = some (i - N) ∧
      ((i - N : Nat) : Int) = max ((i : Int) - (N : Int)) 0) := by
  refine ⟨fun sigs => run_signals_le sigs, ?_, ?_⟩
  · intro N hN
    obtain ⟨M, rfl⟩ : ∃ M, N = M + 1 := ⟨N - 1, by omega⟩
    rw [List.replicate_succ, run_signals_cons]
    have hstep : upsert_idx none true = 1 := by simp [upsert_idx]
    rw [hstep, run_signals_replicate_true M 1 (by omega)]
    congr 1
    omega
  · intro i N
    exact ⟨run_signals_replicate_false N i, by omega⟩

/-- Witness for C4: six successes from a fresh key stop at index 4, and five
failures from index 3 stop at index 0. -/
theorem interval_idx_spec_witness :
    run_signals none (List.replicate 6 true) = some 4 ∧
    run_signals (some 3) (List.replicate 5 false) = some 0 := by
  constructor
  · have h := interval_idx_spec.2.1 6 (by decide)
    simpa using h
  · have h := (interval_idx_spec.2.2 3 5).1
    simpa using h

-- ===================== C5 =====================

/-- C5: when upsert_spaced_tag runs for a key with no existing record, it
appends exactly one new record, at interval index 0 on failure and 1 on
success, with next_due_ts equal to the call time plus schedule[idx] days
(schedule[idx] * 86400 seconds, i.e. 3 days on success, 1 day on failure). -/
theorem fresh_upsert_spec (db : List ReviewRecord) (sid tag : String) (success : Bool)
    (now : Int) (h : db.find? (spacedKeyMatch sid tag) = none) :
    ∃ r, upsert_spaced_tag db sid tag success now = db ++ [r] ∧
      r.session_id = sid ∧ r.tag = tag ∧
      r.interval_idx = (if success then 1 else 0) ∧
      r.next_due_ts = now + (scheduleDays (if success then 1 else 0) : Int) * 86400 ∧
      r.next_due_ts = now + (if success then 3 else 1) * 86400 ∧
      r.last_result = success := by
  refine ⟨fresh_record sid tag success now, ?_, rfl, rfl, rfl, rfl, ?_, rfl⟩
  · unfold upsert_spaced_tag
    rw [h]
  · cases success <;> simp [fresh_record, days_from_now, scheduleDays, INTERVALS_DAYS]

/-- Witness for C5 on an empty store with an initial success. -/
theorem fresh_upsert_spec_witness :
    ∃ r, upsert_spaced_tag [] "s" "TAG" true 0 = [] ++ [r] ∧
      r.session_id = "s" ∧ r.tag = "TAG" ∧
      r.interval_idx = (if true then 1 else 0) ∧
      r.next_due_ts = 0 + (scheduleDays (if true then 1 else 0) : Int) * 86400 ∧
      r.next_due_ts = 0 + (if true then 3 else 1) * 86400 ∧
      r.last_result = true :=
  fresh_upsert_spec [] "s" "TAG" true 0 rfl

-- ===================== Safety-cap bookkeeping lemmas =====================

lemma history_rank_safety (st : CaseState) (r1 r2 r3 : Option String) :
    (history_rank_process st r1 r2 r3).safety_cap = st.safety_cap := rfl

lemma ecg_safety (st : CaseState) (ticks : List String) :
    (ecg_process st ticks).safety_cap = st.safety_cap := rfl

lemma orders_safety (st : CaseState) (ticks : List String) :
    (initial_orders_process st ticks).safety_cap = st.safety_cap := rfl

lemma labs_safety (st : CaseState) (ticks : List String) :
    (labs_review_process st ticks).safety_cap = st.safety_cap := rfl

lemma imaging_safety (st : CaseState) (ticks : List String) :
    (imaging_panel_process st ticks).safety_cap = st.safety_cap := rfl

lemma handoff_safety (st : CaseState) (ticks : List String) :
    (handoff_process st ticks).safety_cap = st.safety_cap := rfl

lemma investigations_safety (st : CaseState) (choice : String) (conf : Int) :
    (investigations_process st choice conf).safety_cap = st.safety_cap := by
  unfold investigations_process
  dsimp only
  split
  · rfl
  · split <;> rfl

lemma nbs_safety (st : CaseState) (choice : String) (conf : Int) :
    (nbs_process st choice conf).safety_cap = st.safety_cap := by
  unfold nbs_process
  dsimp only
  split
  · rfl
  · split <;> rfl

lemma priority_wrong_safety (st : CaseState) (choice : String) (conf : Int)
    (h : find_correct_id priority_options ≠ some choice) :
    (priority_process st choice conf).safety_cap = true := by
  unfold priority_process
  dsimp only
  have hb : (find_correct_id priority_options == some choice) = false := by
    simpa using h
  rw [hb]
  simp only [Bool.false_eq_true, if_false]
  split <;> rfl

lemma run_stages_safety_of_wrong (inp : RunInputs)
    (h : find_correct_id priority_options ≠ some inp.priority_choice) :
    (run_stages inp).safety_cap = true := by
  unfold run_stages
  dsimp only
  rw [handoff_safety, nbs_safety, investigations_safety, imaging_safety, labs_safety,
    orders_safety, ecg_safety, history_rank_safety]
  exact priority_wrong_safety _ _ _ h

-- ===================== C1 =====================

/-- C1: for every sequence of stage submissions and every elapsed time, the
final score reported at case end is in [0, 100]; by construction it is an
integer (the running score only ever adds integers, so the rounding in the
code is the identity) and the finalization clamps it into [0, 100]. -/
theorem final_score_bounds (inp : RunInputs) :
    0 ≤ final_score inp ∧ final_score inp ≤ 100 := by
  unfold final_score
  omega

-- ===================== C2 =====================

/-- C2: if the safety-critical priority single-choice stage is answered
incorrectly, the final score never exceeds the safety cap 70, whatever every
other stage earned; at finalization exactly the safety cap is applied (the
capped score is min(score, 70), so the one-wrong 95 and two-wrong 88 caps
are skipped). -/
theorem safety_cap_precedence (inp : RunInputs)
    (h : find_correct_id priority_options ≠ some inp.priority_choice) :
    final_score inp ≤ XP_POLICY.safety_wrong_cap ∧
    apply_caps (pre_cap_state inp) =
      min (pre_cap_state inp).score XP_POLICY.safety_wrong_cap := by
  have hs : (pre_cap_state inp).safety_cap = true := by
    unfold pre_cap_state
    dsimp only
    exact run_stages_safety_of_wrong inp h
  have hcap : apply_caps (pre_cap_state inp) =
      min (pre_cap_state inp).score XP_POLICY.safety_wrong_cap := by
    unfold apply_caps
    rw [hs]
    simp
  refine ⟨?_, hcap⟩
  unfold final_score
  rw [hcap]
  have h70 : XP_POLICY.safety_wrong_cap = 70 := rfl
  rw [h70]
  omega

/-- Witness for C2: an otherwise perfect fast run with a missed priority
stage stays at or below the safety cap. -/
theorem safety_cap_precedence_witness :
    final_score wrongPriorityRun ≤ XP_POLICY.safety_wrong_cap :=
  (safety_cap_precedence wrongPriorityRun (by decide)).1

-- ===================== C6 =====================

/-- Counterexample to C6 as stated: at the ecg_read checklist stage the user
ticks "rate", one of the two required items (so at least half of the required
items, with no contraindicated pick and one item still missing), yet the code
awards 0 base points, not roughly one third of the full stage value 12. -/
theorem checklist_partial_credit_cex :
    2 * ((checklist_required ecg_checklist).filter
      (fun r => List.contains ["rate"] r)).length ≥
      (checklist_required ecg_checklist).length ∧
    ecg_picked_contra ["rate"] = false ∧
    ecg_got_reqs ["rate"] = false ∧
    (ecg_process init_case_state ["rate"]).score = 0 ∧
    (ecg_process init_case_state ["rate"]).score ≠ XP_POLICY.ecg_interpretation_full / 3 := by
  decide

/-- C6 as amended: checklist-style stages score all-or-nothing on the required
items. The full stage value is awarded exactly when no required item is
missing; if any required item is missing the base award is zero (and with the
contraindication malus the clamp keeps the stage delta at zero); a
contraindicated pick on a complete checklist subtracts the fixed malus. There
is no partial one-third award. Shown for the ecg_read and handoff stages the
claim cites. -/
theorem checklist_all_or_nothing (st : CaseState) (ticks hticks : List String) :
    ((ecg_got_reqs ticks = true → ecg_picked_contra ticks = false →
      (ecg_process st ticks).score = st.score + XP_POLICY.ecg_interpretation_full) ∧
     (ecg_got_reqs ticks = false → (ecg_process st ticks).score = st.score) ∧
     (ecg_got_reqs ticks = true → ecg_picked_contra ticks = true →
      (ecg_process st ticks).score = st.score + 7)) ∧
    ((handoff_good hticks = true → handoff_bad hticks = false →
      (handoff_process st hticks).score = st.score + 6) ∧
     (handoff_good hticks = false → (handoff_process st hticks).score = st.score) ∧
     (handoff_good hticks = true → handoff_bad hticks = true →
      (handoff_process st hticks).score = st.score + 2)) := by
  refine ⟨⟨?_, ?_, ?_⟩, ⟨?_, ?_, ?_⟩⟩
  · intro h1 h2
    simp [ecg_process, h1, h2, XP_POLICY]
  · intro h1
    cases h2 : ecg_picked_contra ticks <;> simp [ecg_process, h1, h2]
  · intro h1 h2
    simp [ecg_process, h1, h2, XP_POLICY]
  · intro h1 h2
    simp [handoff_process, h1, h2]
  · intro h1
    cases h2 : handoff_bad hticks <;> simp [handoff_process, h1, h2]
  · intro h1 h2
    simp [handoff_process, h1, h2]

/-- Witness for C6 as amended: a complete ECG checklist earns the full 12, and
an empty handoff selection earns nothing. -/
theorem checklist_all_or_nothing_witness :
    (ecg_process init_case_state ["rate", "stdep"]).score =
      init_case_state.score + XP_POLICY.ecg_interpretation_full ∧
    (handoff_process init_case_state []).score = init_case_state.score := by
  constructor
  · exact (checklist_all_or_nothing init_case_state ["rate", "stdep"] []).1.1
      (by decide) (by decide)
  · exact (checklist_all_or_nothing init_case_state ["rate", "stdep"] []).2.2.1
      (by decide)

-- ===================== C7 =====================

/-- Counterexample to C7 as stated: a submission whose rank 1 matches the
desired order but whose ranks 2 and 3 are blank contains blanks, so the claim
would subtract the penalty (6 - 4 = 2 after clamping); the code filters the
blanks out before the duplicate check and awards 6 with no penalty. -/
theorem ranking_blank_cex :
    (history_rank_process init_case_state
      (some "Red flags: diaphoresis/SOB/syncope") none none).score = 6 ∧
    history_rank_points_claimed
      (some "Red flags: diaphoresis/SOB/syncope") none none = 2 := by
  decide

/-- C7 as amended: per-position points 6, 4, 2 for ranks matching the desired
order; the fixed penalty 4 is subtracted exactly when the non-blank submitted
ranks contain duplicates (blank ranks are dropped before the duplicate check
and by themselves trigger no penalty); the stage total is clamped to
[0, history_max = 12] even when the penalty drives the intermediate value
negative. -/
theorem ranking_clamp_spec (st : CaseState) (r1 r2 r3 : Option String) :
    (st.score ≤ (history_rank_process st r1 r2 r3).score ∧
     (history_rank_process st r1 r2 r3).score ≤ st.score + XP_POLICY.history_max) ∧
    ((history_seen r1 r2 r3).Nodup →
      (history_rank_process st r1 r2 r3).score =
        st.score + max 0 (min XP_POLICY.history_max (history_base_pts r1 r2 r3))) ∧
    (¬ (history_seen r1 r2 r3).Nodup →
      (history_rank_process st r1 r2 r3).score =
        st.score + max 0 (min XP_POLICY.history_max
          (history_base_pts r1 r2 r3 - XP_POLICY.history_dup_malus))) := by
  have hmax : XP_POLICY.history_max = 12 := rfl
  by_cases hnd : (history_seen r1 r2 r3).Nodup
  · refine ⟨?_, fun _ => ?_, fun hc => absurd hnd hc⟩
    · simp only [history_rank_process, if_pos hnd, hmax]
      omega
    · simp only [history_rank_process, if_pos hnd]
  · refine ⟨?_, fun hc => absurd hc hnd, fun _ => ?_⟩
    · simp only [history_rank_process, if_neg hnd, hmax]
      omega
    · simp only [history_rank_process, if_neg hnd]

/-- Witness for C7 as amended: a duplicated pair of wrong items earns
0 - 4 before the clamp and 0 after it. -/
theorem ranking_clamp_spec_witness :
    (history_rank_process init_case_state (some "x") (some "x") none).score = 0 := by
  rw [(ranking_clamp_spec init_case_state (some "x") (some "x") none).2.2 (by decide)]
  decide

-- ===================== C8 =====================

/-- C8: due_spaced_tags returns only tags of records of the given session whose
next_due_ts is at most now; the selected rows are ordered by next_due_ts
ascending (most overdue first); the output is truncated to the limit; the
count query counts exactly the rows passing the same filter; and whenever that
count fits within the limit, every due record of the session contributes its
tag to the output. -/
theorem due_query_spec (db : List ReviewRecord) (sid : String) (now : Int) (limit : Nat) :
    (∀ t ∈ due_spaced_tags db sid now limit,
      ∃ r ∈ db, r.session_id = sid ∧ r.next_due_ts ≤ now ∧ r.tag = t) ∧
    (due_records db sid now).Sorted dueLE ∧
    (due_spaced_tags db sid now limit).length ≤ limit ∧
    queued_spaced_count db sid now = (due_records db sid now).length ∧
    (queued_spaced_count db sid now ≤ limit →
      ∀ r ∈ db, r.session_id = sid → r.next_due_ts ≤ now →
        r.tag ∈ due_spaced_tags db sid now limit) := by
  have hperm : (due_records db sid now).Perm (db.filter (dueFilter sid now)) :=
    List.perm_insertionSort dueLE (db.filter (dueFilter sid now))
  have hlen : queued_spaced_count db sid now = (due_records db sid now).length := by
    unfold queued_spaced_count
    exact hperm.length_eq.symm
  refine ⟨?_, List.sorted_insertionSort dueLE _, ?_, hlen, ?_⟩
  · intro t ht
    unfold due_spaced_tags at ht
    obtain ⟨r, hr, rfl⟩ := List.mem_map.1 ht
    have hr2 : r ∈ due_records db sid now := List.take_subset _ _ hr
    have hr3 : r ∈ db.filter (dueFilter sid now) := hperm.mem_iff.1 hr2
    obtain ⟨hrdb, hp⟩ := List.mem_filter.1 hr3
    unfold dueFilter at hp
    simp only [Bool.and_eq_true, beq_iff_eq, decide_eq_true_eq] at hp
    exact ⟨r, hrdb, hp.1, hp.2, rfl⟩
  · unfold due_spaced_tags
    rw [List.length_map]
    exact List.length_take_le _ _
  · intro hle r hrdb hsid hdue
    have hp : dueFilter sid now r = true := by
      unfold dueFilter
      simp [hsid, hdue]
    have hr3 : r ∈ db.filter (dueFilter sid now) := List.mem_filter.2 ⟨hrdb, hp⟩
    have hr2 : r ∈ due_records db sid now := hperm.mem_iff.2 hr3
    have htake : (due_records db sid now).take limit = due_records db sid now := by
      refine List.take_of_length_le ?_
      rw [← hlen]
      exact hle
    unfold due_spaced_tags
    rw [htake]
    exact List.mem_map.2 ⟨r, hr2, rfl⟩

/-- Witness for C8: with two due records and one not-yet-due record of another
session, the due tag of the session is listed. -/
theorem due_query_spec_witness :
    ("T1" : String) ∈ due_spaced_tags
      [⟨"s", "T1", 0, 100, false, 0, 0⟩,
       ⟨"s", "T2", 0, 50, true, 0, 0⟩,
       ⟨"other", "T3", 0, 2000, false, 0, 0⟩] "s" 1000 4 :=
  (due_query_spec
    [⟨"s", "T1", 0, 100, false, 0, 0⟩,
     ⟨"s", "T2", 0, 50, true, 0, 0⟩,
     ⟨"other", "T3", 0, 2000, false, 0, 0⟩] "s" 1000 4).2.2.2.2
    (by decide) ⟨"s", "T1", 0, 100, false, 0, 0⟩ (by decide) rfl (by decide)

-- ===================== C9 =====================

/-- C9: the scheduler never raises into the caller: on a persistence error the
wrappers swallow the exception, so recordResult leaves the store unchanged,
listDue returns [] and countDue returns 0; and on a session with no review
records, listDue returns [] and countDue returns 0 whether or not the store
fails. -/
theorem scheduler_swallows (fail : Bool) (db : List ReviewRecord) (sid tag : String)
    (success : Bool) (now : Int) (limit : Nat) :
    due_spaced_tags_safe true db sid now limit = [] ∧
    queued_spaced_count_safe true db sid now = 0 ∧
    upsert_spaced_tag_safe true db sid tag success now = db ∧
    ((∀ r ∈ db, r.session_id ≠ sid) →
      due_spaced_tags_safe fail db sid now limit = [] ∧
      queued_spaced_count_safe fail db sid now = 0) := by
  refine ⟨rfl, rfl, rfl, ?_⟩
  intro h
  have hf : db.filter (dueFilter sid now) = [] := by
    refine List.filter_eq_nil_iff.2 (fun r hr => ?_)
    simp [dueFilter, h r hr]
  cases fail with
  | true => exact ⟨rfl, rfl⟩
  | false =>
    constructor
    · simp [due_spaced_tags_safe, due_spaced_tags, due_records, hf, List.insertionSort]
    · simp [queued_spaced_count_safe, queued_spaced_count, hf]

/-- Witness for C9 on a store holding only another session record. -/
theorem scheduler_swallows_witness :
    due_spaced_tags_safe false [⟨"other", "T", 0, 0, false, 0, 0⟩] "s" 1000 4 = [] ∧
    queued_spaced_count_safe false [⟨"other", "T", 0, 0, false, 0, 0⟩] "s" 1000 = 0 :=
  (scheduler_swallows false [⟨"other", "T", 0, 0, false, 0, 0⟩] "s" "T" true 0 4).2.2.2
    (by decide)

-- ===================== Bridge: per-key index model vs the store-level upsert =====================

lemma spacedKeyMatch_fresh (sid tag : String) (success : Bool) (now : Int) :
    spacedKeyMatch sid tag (fresh_record sid tag success now) = true := by
  simp [spacedKeyMatch, fresh_record]

lemma spacedKeyMatch_step (sid tag : String) (r : ReviewRecord) (success : Bool) (now : Int)
    (h : spacedKeyMatch sid tag r = true) :
    spacedKeyMatch sid tag (step_record r success now) = true := by
  simpa [spacedKeyMatch, step_record] using h

lemma replaceFirst_find? (p : ReviewRecord → Bool) (x : ReviewRecord) (hx : p x = true) :
    ∀ db : List ReviewRecord, (db.find? p).isSome = true →
      (replaceFirst p x db).find? p = some x := by
  intro db
  induction db with
  | nil => intro h; simp at h
  | cons r rest ih =>
    intro h
    by_cases hp : p r = true
    · rw [replaceFirst, if_pos hp]
      exact List.find?_cons_of_pos rest hx
    · rw [replaceFirst, if_neg hp]
      have hpf : p r = false := by
        cases hq : p r
        · rfl
        · exact absurd hq hp
      rw [List.find?_cons_of_neg (replaceFirst p x rest) (by simp [hpf])]
      refine ih ?_
      rw [List.find?_cons_of_neg rest (by simp [hpf])] at h
      exact h

/-- The per-key interval-index model run_signals projects the store-level
upsert_spaced_tag exactly: after an upsert for (sid, tag), the interval index
of the record found for (sid, tag) is upsert_idx of the index found before. -/
lemma upsert_key_idx (db : List ReviewRecord) (sid tag : String) (success : Bool) (now : Int) :
    ((upsert_spaced_tag db sid tag success now).find? (spacedKeyMatch sid tag)).map
      (fun r => r.interval_idx) =
    some (upsert_idx ((db.find? (spacedKeyMatch sid tag)).map (fun r => r.interval_idx))
      success) := by
  cases hfind : db.find? (spacedKeyMatch sid tag) with
  | none =>
    unfold upsert_spaced_tag
    rw [hfind]
    rw [List.find?_append, hfind]
    rw [List.find?_cons_of_pos [] (spacedKeyMatch_fresh sid tag success now)]
    cases success <;> simp [fresh_record, upsert_idx]
  | some r =>
    unfold upsert_spaced_tag
    rw [hfind]
    have hr : spacedKeyMatch sid tag r = true := List.find?_some hfind
    rw [replaceFirst_find? (spacedKeyMatch sid tag) (step_record r success now)
      (spacedKeyMatch_step sid tag r success now hr) db (by simp [hfind])]
    cases success <;> simp [step_record, upsert_idx]
